import Mathlib

/-!
Shallow embedding of the temporal-resolution and ranking core of the `tod`
task manager (files `src/tasks.rs` and `src/time.rs`), together with proofs
about it.

Modelling conventions:
* Machine integers are `Nat` / `Int`; no overflow is possible in the embedded
  code (`date_value` is at most 250 and fits `u8`, the sum in `value` is
  performed in `u32`).
* A Rust function that can panic (`unwrap`, `expect`) is embedded as a
  function returning `Option _`, with `none` standing for the panic / process
  abort. A recoverable `Result<T, String>` is embedded as `Except String T`
  inside the `Option`.
* Instants are whole seconds since the Unix epoch (`Int`); naive calendar
  dates are whole days since the epoch (`Int`).  The ambient clock read by
  `Utc::now()` is threaded explicitly as a field of the configuration and is
  modelled at whole-second granularity.
* The timezone database (`chrono-tz`) is modelled for the zones exercised by
  the program and its tests: `UTC` and `America/Los_Angeles` (with the
  post-2007 United States daylight-saving rule); every other zone name fails
  to parse, which is in particular faithful for strings that are not IANA
  zone names at all.
-/

namespace Tod

/-! ## Calendar arithmetic (model of chrono's proleptic Gregorian calendar) -/

/-- Leap year in the proleptic Gregorian calendar. -/
def isLeapYear (y : Int) : Bool :=
  y % 4 == 0 && (y % 100 != 0 || y % 400 == 0)

/-- Number of days of month `m` (1–12) of year `y`; 0 for an invalid month. -/
def daysInMonth (y : Int) (m : Nat) : Nat :=
  match m with
  | 1 => 31
  | 2 => if isLeapYear y then 29 else 28
  | 3 => 31
  | 4 => 30
  | 5 => 31
  | 6 => 30
  | 7 => 31
  | 8 => 31
  | 9 => 30
  | 10 => 31
  | 11 => 30
  | 12 => 31
  | _ => 0

/-- Days since 1970-01-01 of the calendar day `y`-`m`-`d`
(standard civil-from-days algorithm; `Int.ediv` is floor division here
because every divisor is positive). -/
def daysFromCivil (y : Int) (m d : Nat) : Int :=
  let y' : Int := if m ≤ 2 then y - 1 else y
  let era : Int := y'.ediv 400
  let yoe : Int := y' - era * 400
  let mp : Nat := if 2 < m then m - 3 else m + 9
  let doy : Nat := (153 * mp + 2) / 5 + d - 1
  let doe : Int := yoe * 365 + yoe.ediv 4 - yoe.ediv 100 + (doy : Int)
  era * 146097 + doe - 719468

/-- The calendar year containing the day `z` (days since 1970-01-01). -/
def yearOfDay (z : Int) : Int :=
  let z' := z + 719468
  let era : Int := z'.ediv 146097
  let doe : Nat := (z' - era * 146097).toNat
  let yoe : Nat := (doe - doe / 1460 + doe / 36524 - doe / 146096) / 365
  let y : Int := (yoe : Int) + era * 400
  let doy : Nat := doe - (365 * yoe + yoe / 4 - yoe / 100)
  let mp : Nat := (5 * doy + 2) / 153
  let m : Nat := if mp < 10 then mp + 3 else mp - 9
  if m ≤ 2 then y + 1 else y

/-- Day of the first Sunday on or after day `z` (1970-01-01 was a Thursday). -/
def firstSundayOnOrAfter (z : Int) : Int :=
  let w : Int := (z + 4).emod 7
  z + (7 - w).emod 7

/-! ## Timezones (model of the chrono-tz zones used by the program) -/

/-- The chrono-tz zones exercised by the program under verification. -/
inductive Tz where
  | UTC
  | AmericaLosAngeles
  deriving DecidableEq, Repr

/-- Whether United States daylight-saving time is in force at UTC instant `i`
(post-2007 rule: from 02:00 local standard time on the second Sunday of March,
i.e. 10:00 UTC in the Pacific zone, until 02:00 local daylight time on the
first Sunday of November, i.e. 09:00 UTC). -/
def isUsDst (i : Int) : Bool :=
  let y := yearOfDay (i.ediv 86400)
  let start := firstSundayOnOrAfter (daysFromCivil y 3 8) * 86400 + 10 * 3600
  let stop := firstSundayOnOrAfter (daysFromCivil y 11 1) * 86400 + 9 * 3600
  decide (start ≤ i ∧ i < stop)

/-- UTC offset (in seconds) of zone `tz` at UTC instant `i`. -/
def tzOffset (tz : Tz) (i : Int) : Int :=
  match tz with
  | .UTC => 0
  | .AmericaLosAngeles => if isUsDst i then -25200 else -28800

/-- Model of `str.parse::<Tz>()`: the zone names exercised by the program
resolve; any other string fails to parse. -/
def parseTz (s : String) : Option Tz :=
  if s == "UTC" then some Tz.UTC
  else if s == "America/Los_Angeles" then some Tz.AmericaLosAngeles
  else none

/-- Model of chrono's `LocalResult`: how many instants realize a given local
(naive) date-time in a zone. -/
inductive LocalResult where
  | single (i : Int)
  | ambiguous (i j : Int)
  | nonexistent
  deriving DecidableEq, Repr

/-- `LocalResult::unwrap()` panics unless the result is `Single`. -/
def LocalResult.unwrapOpt : LocalResult → Option Int
  | .single i => some i
  | _ => none

/-- Model of `NaiveDateTime::and_local_timezone(tz)` restricted to the
instant: the UTC instants whose local representation in `tz` is the naive
date-time `n` (seconds since the epoch read as local time). -/
def localToInstant (tz : Tz) (n : Int) : LocalResult :=
  match tz with
  | .UTC => .single n
  | .AmericaLosAngeles =>
    let std := n + 28800
    let dst := n + 25200
    match tzOffset .AmericaLosAngeles std == -28800,
          tzOffset .AmericaLosAngeles dst == -25200 with
    | true, true => .ambiguous dst std
    | true, false => .single std
    | false, true => .single dst
    | false, false => .nonexistent

/-- Model of chrono's `DateTime<Tz>`: a UTC instant paired with the timezone
it is displayed in.  Comparison of two values (Rust `Ord`) only looks at the
instant. -/
structure ZonedDateTime where
  instant : Int
  tz : Tz
  deriving DecidableEq, Repr

/-- `DateTime::date_naive()`: the local calendar date of the instant in its
attached timezone, as days since the epoch. -/
def ZonedDateTime.dateNaive (zdt : ZonedDateTime) : Int :=
  (zdt.instant + tzOffset zdt.tz zdt.instant).ediv 86400

/-! ## String parsing (model of the chrono format strings used in time.rs) -/

/-- Decimal value of an ASCII digit. -/
def digitVal (c : Char) : Option Nat :=
  if c.isDigit then some (c.toNat - 48) else none

/-- Two-digit decimal number. -/
def readNat2 (a b : Char) : Option Nat :=
  match digitVal a, digitVal b with
  | some x, some y => some (x * 10 + y)
  | _, _ => none

/-- Four-digit decimal number. -/
def readNat4 (a b c d : Char) : Option Nat :=
  match readNat2 a b, readNat2 c d with
  | some x, some y => some (x * 100 + y)
  | _, _ => none

/-- A validated calendar date `y`-`m`-`d` as days since the epoch. -/
def mkDate (y m d : Nat) : Option Int :=
  if 1 ≤ m ∧ m ≤ 12 ∧ 1 ≤ d ∧ d ≤ daysInMonth (y : Int) m then
    some (daysFromCivil (y : Int) m d)
  else none

/-- Fixed-width reading of chrono's `"%Y-%m-%d"` on a 10-character string:
four-digit year, two-digit month and day separated by hyphens, validated as a
real calendar date.  Returns days since the epoch. -/
def parseNaiveDate (s : String) : Option Int :=
  match s.data with
  | [y1, y2, y3, y4, '-', m1, m2, '-', d1, d2] =>
    match readNat4 y1 y2 y3 y4, readNat2 m1 m2, readNat2 d1 d2 with
    | some y, some m, some d => mkDate y m d
    | _, _, _ => none
  | _ => none

/-- Shared body of the two naive date-time formats: the date-time
`y1y2y3y4-m1m2-d1d2Th1h2:n1n2:s1s2` as naive seconds since the epoch,
validated as a real calendar date and time of day. -/
def mkNaiveDateTime (y1 y2 y3 y4 m1 m2 d1 d2 h1 h2 n1 n2 s1 s2 : Char) :
    Option Int :=
  match readNat4 y1 y2 y3 y4, readNat2 m1 m2, readNat2 d1 d2,
        readNat2 h1 h2, readNat2 n1 n2, readNat2 s1 s2 with
  | some y, some m, some dd, some hh, some mi, some ss =>
    match mkDate y m dd with
    | some day =>
      if hh ≤ 23 ∧ mi ≤ 59 ∧ ss ≤ 59 then
        some (day * 86400 + (hh * 3600 + mi * 60 + ss : Nat))
      else none
    | none => none
  | _, _, _, _, _, _ => none

/-- Fixed-width reading of chrono's `"%Y-%m-%dT%H:%M:%S"` on a 19-character
string.  Returns naive seconds since the epoch. -/
def parseNaiveDateTime (s : String) : Option Int :=
  match s.data with
  | [y1, y2, y3, y4, '-', m1, m2, '-', d1, d2, 'T', h1, h2, ':', n1, n2, ':', s1, s2] =>
    mkNaiveDateTime y1 y2 y3 y4 m1 m2 d1 d2 h1 h2 n1 n2 s1 s2
  | _ => none

/-- Fixed-width reading of chrono's `"%Y-%m-%dT%H:%M:%SZ"` on a 20-character
string. -/
def parseNaiveDateTimeZ (s : String) : Option Int :=
  match s.data with
  | [y1, y2, y3, y4, '-', m1, m2, '-', d1, d2, 'T', h1, h2, ':', n1, n2, ':', s1, s2, 'Z'] =>
    mkNaiveDateTime y1 y2 y3 y4 m1 m2 d1 d2 h1 h2 n1 n2 s1 s2
  | _ => none

/-! ## Configuration (context) -/

/-- Modelled from the spec: the source's `Config` (its file `config.rs` is
not part of the sources under verification).  Per the spec's Context, it
supplies an optional default timezone name and the current instant,
"injectable for determinism" — `nowUtcSeconds` is the value read by
`Utc::now()` inside `time::now`, threaded explicitly. -/
structure Config where
  timezone : Option String
  nowUtcSeconds : Int
  deriving DecidableEq, Repr

/-! ## time.rs -/

/-- `time::timezone_from_str`: `None` means UTC; `Some(s)` is parsed and
**unwrapped**, so an unparsable zone name panics (`none`). -/
def timezone_from_str (timezone_string : Option String) : Option Tz :=
  match timezone_string with
  | none => some Tz.UTC
  | some s => parseTz s

/-- `time::now`: `Utc::now().with_timezone(&tz)` where `tz` comes from the
configured zone name; panics (`none`) when that name does not parse. -/
def now (config : Config) : Option ZonedDateTime :=
  (timezone_from_str config.timezone).map (fun tz => ⟨config.nowUtcSeconds, tz⟩)

/-- `time::today_date`: the current date in the configured timezone. -/
def today_date (config : Config) : Option Int :=
  (now config).map ZonedDateTime.dateNaive

/-- `time::is_date_in_past`: `date.signed_duration_since(today).num_days() < 0`;
the duration between two naive dates is a whole number of days, so this is
exactly `date < today`. -/
def is_date_in_past (date : Int) (config : Config) : Option Bool :=
  (today_date config).map (fun td => decide (date - td < 0))

/-- `time::date_is_today` compares the `"%Y-%m-%d"` renderings of the two
dates; that rendering is injective on dates, so this is date equality. -/
def date_is_today (date : Int) (config : Config) : Option Bool :=
  (today_date config).map (fun td => date == td)

/-- `time::datetime_is_today`. -/
def datetime_is_today (datetime : ZonedDateTime) (config : Config) : Option Bool :=
  date_is_today datetime.dateNaive config

/-- `time::datetime_from_str`.  Length 19 parses as a naive local date-time in
`timezone`; length 20 parses the `Z`-suffixed format and anchors to UTC; any
other length is a recoverable error carrying the string.  A parse failure at
length 19/20 hits `.expect` (panic, outer `none`), and a non-`Single` local
resolution hits `.unwrap()` (panic). -/
def datetime_from_str (s : String) (timezone : Tz) :
    Option (Except String ZonedDateTime) :=
  match s.length with
  | 19 =>
    match parseNaiveDateTime s with
    | some n => (localToInstant timezone n).unwrapOpt.map
        (fun i => Except.ok ⟨i, timezone⟩)
    | none => none
  | 20 =>
    match parseNaiveDateTimeZ s with
    | some n => (localToInstant Tz.UTC n).unwrapOpt.map
        (fun i => Except.ok ⟨i, Tz.UTC⟩)
    | none => none
  | _ => some (Except.error ("cannot parse DateTime: " ++ s))

/-- `time::date_from_str`.  Length 10 parses as a calendar date (recoverable
error on bad content); lengths 19/20 parse as date-times in `timezone` and
take the local date (the parse failure is recoverable here, but the local
resolution is `.unwrap()`ed); any other length is a recoverable error. -/
def date_from_str (s : String) (timezone : Tz) : Option (Except String Int) :=
  match s.length with
  | 10 =>
    match parseNaiveDate s with
    | some d => some (Except.ok d)
    | none => some (Except.error "could not parse Date")
  | 19 =>
    match parseNaiveDateTime s with
    | some n => (localToInstant timezone n).unwrapOpt.map
        (fun i => Except.ok (ZonedDateTime.dateNaive ⟨i, timezone⟩))
    | none => some (Except.error "could not parse DateTime")
  | 20 =>
    match parseNaiveDateTimeZ s with
    | some n => (localToInstant timezone n).unwrapOpt.map
        (fun i => Except.ok (ZonedDateTime.dateNaive ⟨i, timezone⟩))
    | none => some (Except.error "could not parse DateTime")
  | _ => some (Except.error ("cannot parse NaiveDate, unknown length: " ++ s))

/-! ## Task model (tasks.rs) -/

/-- `tasks::priority::Priority` (declared in `tasks/priority.rs`; its four
variants are fixed by the exhaustive matches in tasks.rs). -/
inductive Priority where
  | None
  | Low
  | Medium
  | High
  deriving DecidableEq, Repr

/-- `tasks::DateInfo`: the wire-level due specification. -/
structure DateInfo where
  date : String
  is_recurring : Bool
  timezone : Option String
  deriving DecidableEq, Repr

/-- `tasks::Task` (the fields the temporal/ranking core reads). -/
structure Task where
  id : String
  content : String
  priority : Priority
  description : String
  due : Option DateInfo
  is_completed : Option Bool
  is_deleted : Option Bool
  checked : Option Bool
  deriving DecidableEq, Repr

/-- `tasks::DateTimeInfo`: the resolved temporal state. -/
inductive DateTimeInfo where
  | NoDateTime
  | Date (date : Int) (is_recurring : Bool)
  | DateTime (datetime : ZonedDateTime) (is_recurring : Bool)
  deriving DecidableEq, Repr

/-- `projects::TaskFilter` (its three variants are fixed by the exhaustive
match in `Task::filter`). -/
inductive TaskFilter where
  | Unscheduled
  | Overdue
  | Recurring
  deriving DecidableEq, Repr

/-- The timezone chosen by the `let tz = match ...` binding at the top of
`Task::datetimeinfo`: the due spec's explicit zone name when present, else
the configured zone name when present, else UTC.  `none` is the panic inside
`timezone_from_str`. -/
def Task.resolvedTz (t : Task) (config : Config) : Option Tz :=
  match t.due, config.timezone with
  | none, some tz_string => timezone_from_str (some tz_string)
  | none, none => some Tz.UTC
  | some di, cfg_tz =>
    match di.timezone with
    | none =>
      match cfg_tz with
      | some tz_string => timezone_from_str (some tz_string)
      | none => some Tz.UTC
    | some tz_string => timezone_from_str (some tz_string)

/-- `Task::datetimeinfo`: converts the raw due representation into
`DateTimeInfo`.  A 10-character date string is parsed as a calendar date;
any other due string goes through `datetime_from_str`. -/
def Task.datetimeinfo (t : Task) (config : Config) :
    Option (Except String DateTimeInfo) := do
  let tz ← t.resolvedTz config
  match t.due with
  | none => pure (Except.ok DateTimeInfo.NoDateTime)
  | some di =>
    if di.date.length = 10 then
      match ← date_from_str di.date tz with
      | Except.ok d => pure (Except.ok (DateTimeInfo.Date d di.is_recurring))
      | Except.error e => pure (Except.error e)
    else
      match ← datetime_from_str di.date tz with
      | Except.ok zdt => pure (Except.ok (DateTimeInfo.DateTime zdt di.is_recurring))
      | Except.error e => pure (Except.error e)

/-- `Task::has_no_date`. -/
def Task.has_no_date (t : Task) : Bool :=
  t.due.isNone

/-- `Task::is_recurring`. -/
def Task.is_recurring (t : Task) : Bool :=
  match t.due with
  | none => false
  | some di => di.is_recurring

/-- `Task::is_overdue`: false with no due spec or on a resolution error;
otherwise whether the resolved calendar date (for a date-time, its local date
component) is strictly before today. -/
def Task.is_overdue (t : Task) (config : Config) : Option Bool := do
  match ← t.datetimeinfo config with
  | Except.ok DateTimeInfo.NoDateTime => pure false
  | Except.ok (DateTimeInfo.Date d _) => is_date_in_past d config
  | Except.ok (DateTimeInfo.DateTime zdt _) => is_date_in_past zdt.dateNaive config
  | Except.error _ => pure false

/-- `Task::is_today`: false with no due spec or on a resolution error;
otherwise whether the resolved date (or the date-time's local date component)
equals today. -/
def Task.is_today (t : Task) (config : Config) : Option Bool := do
  match ← t.datetimeinfo config with
  | Except.ok DateTimeInfo.NoDateTime => pure false
  | Except.ok (DateTimeInfo.Date d _) => (today_date config).map (fun td => d == td)
  | Except.ok (DateTimeInfo.DateTime zdt _) => datetime_is_today zdt config
  | Except.error _ => pure false

/-- `Task::has_time`: true exactly when resolution yields the `DateTime`
case. -/
def Task.has_time (t : Task) (config : Config) : Option Bool :=
  (t.datetimeinfo config).map (fun r =>
    match r with
    | Except.ok (DateTimeInfo.DateTime _ _) => true
    | _ => false)

/-- `Task::datetime`: the concrete instant, present exactly in the `DateTime`
case (Rust `Option<DateTime<Tz>>`). -/
def Task.datetime (t : Task) (config : Config) : Option (Option ZonedDateTime) :=
  (t.datetimeinfo config).map (fun r =>
    match r with
    | Except.ok (DateTimeInfo.DateTime zdt _) => some zdt
    | _ => none)

/-- `Task::date_value`: the temporal contribution to a task's rank.  `Duration
::num_minutes` is whole minutes truncated toward zero, i.e. `Int.tdiv` by 60. -/
def Task.date_value (t : Task) (config : Config) : Option Nat := do
  match ← t.datetimeinfo config with
  | Except.ok DateTimeInfo.NoDateTime => pure 80
  | Except.ok (DateTimeInfo.Date d r) => do
    let td ← today_date config
    let today_value : Nat := if d == td then 100 else 0
    let overdue ← t.is_overdue config
    let overdue_value : Nat := if overdue then 150 else 0
    let recurring_value : Nat := if r then 0 else 50
    pure (today_value + overdue_value + recurring_value)
  | Except.ok (DateTimeInfo.DateTime zdt r) => do
    let recurring_value : Nat := if r then 0 else 50
    let n ← now config
    let minutes : Int := Int.tdiv (zdt.instant - n.instant) 60
    if -15 ≤ minutes ∧ minutes ≤ 15 then pure (200 + recurring_value)
    else pure recurring_value
  | Except.error _ => pure 50

/-- `Task::priority_value`: the fixed priority lookup used for ranking. -/
def Task.priority_value (t : Task) : Nat :=
  match t.priority with
  | Priority.None => 2
  | Priority.Low => 1
  | Priority.Medium => 3
  | Priority.High => 4

/-- `Task::value`: `date_value` plus `priority_value` (summed in `u32`, so no
overflow). -/
def Task.value (t : Task) (config : Config) : Option Nat := do
  let dv ← t.date_value config
  pure (dv + t.priority_value)

/-- `Task::filter` for the three list filters, with Rust's short-circuit
`||`. -/
def Task.filter (t : Task) (config : Config) (f : TaskFilter) : Option Bool :=
  match f with
  | TaskFilter.Unscheduled =>
    if t.has_no_date then some true else t.is_overdue config
  | TaskFilter.Overdue => t.is_overdue config
  | TaskFilter.Recurring => some t.is_recurring

/-! ## Sorting and batch filtering (tasks.rs) -/

/-- The sort key of `sort_by_value`: `Reverse(task.value(config))`, i.e. the
computed value with the order reversed.  Total under the guard that every
value is defined. -/
def valueKey (config : Config) (t : Task) : Nat :=
  (t.value config).getD 0

/-- `tasks::sort_by_value`: Rust's `sort_by_key` is a stable sort; it is
modelled by `List.insertionSort` (stable) with the descending relation on
computed values.  Keys are evaluated lazily during comparisons: a slice of
fewer than two elements is returned unchanged without evaluating any key,
while on two or more elements every element's key is evaluated at least
once, so the whole call panics (`none`) if any task's value does. -/
def sort_by_value (tasks : List Task) (config : Config) : Option (List Task) :=
  if tasks.length < 2 ∨ tasks.all (fun t => (t.value config).isSome) then
    some (tasks.insertionSort (fun a b => valueKey config b ≤ valueKey config a))
  else none

/-- The sort key of `sort_by_datetime`: `task.datetime(config)`, compared with
Rust's `Option`/`DateTime` order — `None` below every `Some`, and date-times
by their instant — i.e. as `WithBot Int`. -/
def datetimeKey (config : Config) (t : Task) : WithBot Int :=
  ((t.datetime config).getD none).map ZonedDateTime.instant

/-- `tasks::sort_by_datetime`: stable sort ascending by the optional concrete
instant, with the same lazy key evaluation as `sort_by_value`: fewer than two
elements evaluate no key and return unchanged. -/
def sort_by_datetime (tasks : List Task) (config : Config) : Option (List Task) :=
  if tasks.length < 2 ∨ tasks.all (fun t => (t.datetime config).isSome) then
    some (tasks.insertionSort (fun a b => datetimeKey config a ≤ datetimeKey config b))
  else none

/-- The predicate of `filter_not_in_future`, with Rust's short-circuit `||`:
`is_today || has_no_date || is_overdue`. -/
def notInFuturePred (t : Task) (config : Config) : Option Bool := do
  let a ← t.is_today config
  if a then pure true
  else if t.has_no_date then pure true
  else t.is_overdue config

/-- `tasks::filter_not_in_future` (the `Result` it returns in Rust is always
`Ok`, so only the panic is threaded). -/
def filter_not_in_future (tasks : List Task) (config : Config) :
    Option (List Task) :=
  match tasks with
  | [] => some []
  | t :: ts => do
    let b ← notInFuturePred t config
    let rest ← filter_not_in_future ts config
    pure (if b then t :: rest else rest)

/-- The predicate of `filter_today_and_has_time`, with Rust's short-circuit
`&&`: `is_today && has_time`. -/
def todayAndHasTimePred (t : Task) (config : Config) : Option Bool := do
  let a ← t.is_today config
  if a then t.has_time config else pure false

/-- `tasks::filter_today_and_has_time`. -/
def filter_today_and_has_time (tasks : List Task) (config : Config) :
    Option (List Task) :=
  match tasks with
  | [] => some []
  | t :: ts => do
    let b ← todayAndHasTimePred t config
    let rest ← filter_today_and_has_time ts config
    pure (if b then t :: rest else rest)

/-! ## Concrete fixtures used by witnesses and counterexamples -/

/-- A task fixture: only `id`, `priority` and `due` vary in this
development. -/
def mkTask (id : String) (pri : Priority) (due : Option DateInfo) : Task :=
  ⟨id, "task content", pri, "", due, none, none, none⟩

/-- A context whose clock reads midnight 1970-01-01 UTC and with no
configured timezone. -/
def cfgEpoch : Config := ⟨none, 0⟩

def cfgC1 : Config := ⟨some "UTC", 0⟩

def taskC1 : Task := mkTask "1" Priority.High (some ⟨"1969-12-31", false, none⟩)

def taskC2x : Task := mkTask "2" Priority.None (some ⟨"2000-01-01T00:00:00", false, none⟩)

/-- A clock 930 seconds (15.5 minutes) before 2000-01-01T00:00:00Z. -/
def cfgC2x : Config := ⟨none, 946684800 - 930⟩

/-- A clock exactly at 2000-01-01T00:00:00Z. -/
def cfgC2w : Config := ⟨none, 946684800⟩

/-- Scenario A's context: Los Angeles, clock at 2024-01-01T20:00:00Z (local
noon on 2024-01-01). -/
def cfgA : Config := ⟨some "America/Los_Angeles", 1704139200⟩

/-- Scenario A's task: date-only 2020-12-20, non-recurring, priority
Medium. -/
def taskA : Task := mkTask "3" Priority.Medium (some ⟨"2020-12-20", false, none⟩)

/-- A due spec carrying an explicit timezone name that is not an IANA
zone. -/
def taskC4 : Task := mkTask "4" Priority.Medium (some ⟨"2023-01-01", false, some "Not A Real Zone"⟩)

/-- A task with no explicit timezone, for a context carrying a bad zone
name. -/
def taskC4b : Task := mkTask "5" Priority.None (some ⟨"2023-01-01", false, none⟩)

def cfgC4b : Config := ⟨some "Also Not A Zone", 0⟩

/-- A due string of length 19 whose content does not parse. -/
def taskC5x : Task := mkTask "6" Priority.None (some ⟨"9999-99-99T99:99:99", false, none⟩)

/-- A due string of unrecognized length (9 characters). -/
def taskC5w : Task := mkTask "7" Priority.None (some ⟨"2invalid!", false, none⟩)

/-- A well-formed date-only companion task. -/
def taskC5o : Task := mkTask "8" Priority.High (some ⟨"2000-01-01", false, none⟩)

/-- A due string of length 10 whose content is not a real calendar date. -/
def taskC5t : Task := mkTask "13" Priority.None (some ⟨"2021-13-40", false, none⟩)

/-- A zone-suffixed 20-character due string together with an explicit
non-UTC timezone. -/
def taskC6z : Task := mkTask "9" Priority.None (some ⟨"2021-02-27T19:41:56Z", false, some "America/Los_Angeles"⟩)

def taskC6a : Task := mkTask "10" Priority.None (some ⟨"2021-08-13", false, none⟩)

/-- A due spec with an explicit zone, against a context with a different
zone. -/
def taskC7 : Task := mkTask "11" Priority.None (some ⟨"2021-08-13", false, some "UTC"⟩)

def cfgC7 : Config := ⟨some "America/Los_Angeles", 0⟩

def t8a : Task := mkTask "a" Priority.None none

def t8b : Task := mkTask "b" Priority.Medium none

def t8c : Task := mkTask "c" Priority.None none

def ts8 : List Task := [t8a, t8b, t8c]

def t9n : Task := mkTask "n" Priority.None none

def t9d : Task := mkTask "d" Priority.None (some ⟨"2021-08-13", false, none⟩)

def t9p : Task := mkTask "p" Priority.None (some ⟨"2015-09-06T16:00:00", false, none⟩)

def t9f : Task := mkTask "f" Priority.None (some ⟨"2035-09-06T16:00:00", false, none⟩)

def ts9 : List Task := [t9f, t9p, t9n, t9d]

/-- A task whose due string fails resolution recoverably (length 3). -/
def taskC10 : Task := mkTask "12" Priority.Low (some ⟨"abc", false, none⟩)

deriving instance DecidableEq for Except

/-! ## Helper lemmas -/

/-- With no due spec the resolved timezone is the configured one. -/
theorem resolvedTz_due_none (t : Task) (c : Config) (h : t.due = none) :
    t.resolvedTz c = timezone_from_str c.timezone := by
  unfold Task.resolvedTz
  rw [h]
  cases c.timezone <;> rfl

/-- `num_minutes` lands in the accepted window `[-15, 15]` exactly when the
signed gap is under 960 seconds (16 minutes) in absolute value. -/
theorem tdiv60_window (s : Int) :
    (-15 ≤ s.tdiv 60 ∧ s.tdiv 60 ≤ 15) ↔ (-960 < s ∧ s < 960) := by
  rcases le_or_lt 0 s with h | h
  · rw [Int.tdiv_eq_ediv h (by norm_num)]
    omega
  · have h2 : (0:Int) ≤ -s := by omega
    have h3 : s.tdiv 60 = -((-s).tdiv 60) := by
      rw [Int.neg_tdiv, neg_neg]
    rw [h3, Int.tdiv_eq_ediv h2 (by norm_num)]
    omega

/-- Stability of `List.insertionSort` for a relation that holds between any
two elements of equal key: each key class of the output equals the
corresponding key class of the input. -/
theorem insertionSort_filter_key {α κ : Type} [DecidableEq κ] (key : α → κ)
    (r : α → α → Prop) [DecidableRel r]
    (hr : ∀ a b : α, key a = key b → r a b) (l : List α) (v : κ) :
    (l.insertionSort r).filter (fun t => key t == v) =
      l.filter (fun t => key t == v) := by
  set p : α → Bool := fun t => key t == v with hp
  have hmem : ∀ a ∈ l.filter p, p a = true := fun a ha => (List.mem_filter.mp ha).2
  have hpw : (l.filter p).Pairwise r := by
    refine List.pairwise_of_forall_mem_list ?_
    intro a ha b hb
    have hka : key a = v := by
      have := (List.mem_filter.mp ha).2
      simpa [hp] using this
    have hkb : key b = v := by
      have := (List.mem_filter.mp hb).2
      simpa [hp] using this
    exact hr a b (hka.trans hkb.symm)
  have hsub : (l.filter p).Sublist (l.insertionSort r) :=
    List.sublist_insertionSort hpw (List.filter_sublist l)
  have hsub2 : (l.filter p).Sublist ((l.insertionSort r).filter p) := by
    have h2 := List.Sublist.filter p hsub
    rwa [List.filter_eq_self.mpr hmem] at h2
  have hperm : ((l.insertionSort r).filter p).Perm (l.filter p) :=
    (List.perm_insertionSort r l).filter p
  exact (hsub2.eq_of_length hperm.length_eq.symm).symm

/-- A successful `sort_by_value` call is the stable insertion sort of its
input, and — unless the input is too short for any key to be evaluated —
every input value is defined. -/
theorem sort_by_value_some (tasks : List Task) (config : Config)
    (out : List Task) (h : sort_by_value tasks config = some out) :
    out = tasks.insertionSort
      (fun a b => valueKey config b ≤ valueKey config a) ∧
    (tasks.length < 2 ∨ ∀ t ∈ tasks, (t.value config).isSome) := by
  by_cases hg : tasks.length < 2 ∨ tasks.all (fun t => (t.value config).isSome)
  · unfold sort_by_value at h
    rw [if_pos hg] at h
    refine ⟨(Option.some_inj.mp h).symm, ?_⟩
    rcases hg with hg | hg
    · exact Or.inl hg
    · exact Or.inr fun t ht => List.all_eq_true.mp hg t ht
  · unfold sort_by_value at h
    rw [if_neg hg] at h
    exact absurd h (by simp)

/-- A successful `sort_by_value` call permutes its input. -/
theorem sort_by_value_perm (tasks : List Task) (config : Config)
    (out : List Task) (h : sort_by_value tasks config = some out) :
    out.Perm tasks := by
  rw [(sort_by_value_some tasks config out h).1]
  exact List.perm_insertionSort _ tasks

/-- A successful `sort_by_datetime` call is the stable insertion sort of its
input, and — unless the input is too short for any key to be evaluated —
every input key is defined. -/
theorem sort_by_datetime_some (tasks : List Task) (config : Config)
    (out : List Task) (h : sort_by_datetime tasks config = some out) :
    out = tasks.insertionSort
      (fun a b => datetimeKey config a ≤ datetimeKey config b) ∧
    (tasks.length < 2 ∨ ∀ t ∈ tasks, (t.datetime config).isSome) := by
  by_cases hg : tasks.length < 2 ∨ tasks.all (fun t => (t.datetime config).isSome)
  · unfold sort_by_datetime at h
    rw [if_pos hg] at h
    refine ⟨(Option.some_inj.mp h).symm, ?_⟩
    rcases hg with hg | hg
    · exact Or.inl hg
    · exact Or.inr fun t ht => List.all_eq_true.mp hg t ht
  · unfold sort_by_datetime at h
    rw [if_neg hg] at h
    exact absurd h (by simp)

/-- An unrecognized due-string length (with a resolvable timezone) yields the
recoverable `ParseError` carrying the offending string. -/
theorem datetimeinfo_unknown_length (t : Task) (c : Config) (di : DateInfo)
    (tz : Tz) (hdue : t.due = some di) (htz : t.resolvedTz c = some tz)
    (h10 : di.date.length ≠ 10) (h19 : di.date.length ≠ 19)
    (h20 : di.date.length ≠ 20) :
    t.datetimeinfo c = some (Except.error ("cannot parse DateTime: " ++ di.date)) := by
  unfold Task.datetimeinfo
  rw [htz, hdue]
  simp only [Option.some_bind, if_neg h10]
  unfold datetime_from_str
  split
  · omega
  · omega
  · rfl

/-- A recoverable resolution error makes `date_value` fall back to 50. -/
theorem date_value_of_error (t : Task) (c : Config) (e : String)
    (herr : t.datetimeinfo c = some (Except.error e)) :
    t.date_value c = some 50 := by
  simp [Task.date_value, herr]

/-- A resolution error can only come from a present due spec. -/
theorem datetimeinfo_error_due_isSome (t : Task) (c : Config) (e : String)
    (herr : t.datetimeinfo c = some (Except.error e)) : t.due.isSome := by
  rcases hdue : t.due with _ | di
  · rw [Task.datetimeinfo, resolvedTz_due_none t c hdue] at herr
    rcases htz : timezone_from_str c.timezone with _ | tz <;>
      rw [htz] at herr <;> simp [hdue] at herr
  · simp

/-- Any member of a `filter_not_in_future` output satisfies its predicate. -/
theorem mem_filter_not_in_future (c : Config) (t : Task) :
    ∀ ts out, filter_not_in_future ts c = some out → t ∈ out →
      notInFuturePred t c = some true := by
  intro ts
  induction ts with
  | nil =>
    intro out h hm
    simp [filter_not_in_future] at h
    subst h
    simp at hm
  | cons x xs ih =>
    intro out h hm
    rcases hb : notInFuturePred x c with _ | b
    · simp [filter_not_in_future, hb] at h
    rcases hrest : filter_not_in_future xs c with _ | rest
    · simp [filter_not_in_future, hb, hrest] at h
    have hout : out = if b then x :: rest else rest := by
      simp [filter_not_in_future, hb, hrest] at h
      exact h.symm
    rcases b with _ | _
    · rw [hout] at hm
      simp at hm
      exact ih rest hrest hm
    · rw [hout] at hm
      simp at hm
      rcases hm with hm | hm
      · rw [hm]
        exact hb
      · exact ih rest hrest hm

/-- Any member of a `filter_today_and_has_time` output satisfies its
predicate. -/
theorem mem_filter_today_and_has_time (c : Config) (t : Task) :
    ∀ ts out, filter_today_and_has_time ts c = some out → t ∈ out →
      todayAndHasTimePred t c = some true := by
  intro ts
  induction ts with
  | nil =>
    intro out h hm
    simp [filter_today_and_has_time] at h
    subst h
    simp at hm
  | cons x xs ih =>
    intro out h hm
    rcases hb : todayAndHasTimePred x c with _ | b
    · simp [filter_today_and_has_time, hb] at h
    rcases hrest : filter_today_and_has_time xs c with _ | rest
    · simp [filter_today_and_has_time, hb, hrest] at h
    have hout : out = if b then x :: rest else rest := by
      simp [filter_today_and_has_time, hb, hrest] at h
      exact h.symm
    rcases b with _ | _
    · rw [hout] at hm
      simp at hm
      exact ih rest hrest hm
    · rw [hout] at hm
      simp at hm
      rcases hm with hm | hm
      · rw [hm]
        exact hb
      · exact ih rest hrest hm

/-! ## Claims -/

/-- C1: for every task (in a context whose current date resolves), a missing
due spec gives `date_value` exactly 80 regardless of priority, and a
date-only resolution gives the sum of +100 when the date equals the current
date, +150 when it is strictly before it, and +50 when non-recurring (0 if
recurring), additively. -/
theorem C1_date_value_cases (t : Task) (c : Config) (td : Int)
    (htd : today_date c = some td) :
    (t.due = none → t.date_value c = some 80) ∧
    (∀ d r, t.datetimeinfo c = some (Except.ok (DateTimeInfo.Date d r)) →
      t.date_value c = some ((if d = td then 100 else 0) +
        (if d < td then 150 else 0) + (if r then 0 else 50))) := by
  have htz : ∃ tz, timezone_from_str c.timezone = some tz := by
    rcases hn : timezone_from_str c.timezone with _ | tz
    · simp [today_date, now, hn] at htd
    · exact ⟨tz, rfl⟩
  obtain ⟨tz, htzs⟩ := htz
  constructor
  · intro hdue
    have hres := resolvedTz_due_none t c hdue
    simp [Task.date_value, Task.datetimeinfo, hres, htzs, hdue]
  · intro d r hinfo
    have hov : t.is_overdue c = some (decide (d - td < 0)) := by
      simp [Task.is_overdue, hinfo, is_date_in_past, htd]
    simp [Task.date_value, hinfo, htd, hov, beq_iff_eq, sub_neg]

/-- Witness for C1: in a UTC context with the clock at the epoch, a task with
no due spec scores 80 and the date-only task due 1969-12-31 (overdue,
non-recurring) scores 150 + 50 = 200. -/
theorem C1_witness :
    today_date cfgC1 = some 0 ∧
    (mkTask "w1" Priority.High none).date_value cfgC1 = some 80 ∧
    taskC1.date_value cfgC1 = some 200 := by
  refine ⟨by decide, ?_, ?_⟩
  · exact (C1_date_value_cases _ cfgC1 0 (by decide)).1 rfl
  · have h := (C1_date_value_cases taskC1 cfgC1 0 (by decide)).2 (-1) false (by decide)
    norm_num at h
    exact h

/-- C2 (amended): for every task resolving to a `DateTime`, `date_value` is
200 plus the +50/+0 non-recurrence bonus exactly when the truncated
whole-minute gap from the current instant lies in [-15, 15] — that is, when
the signed gap is strictly under 960 seconds in absolute value — and only the
bonus otherwise. -/
theorem C2_datetime_window (t : Task) (c : Config) (zdt : ZonedDateTime)
    (r : Bool) (n : ZonedDateTime)
    (hinfo : t.datetimeinfo c = some (Except.ok (DateTimeInfo.DateTime zdt r)))
    (hn : now c = some n) :
    t.date_value c =
      some (if -960 < zdt.instant - n.instant ∧ zdt.instant - n.instant < 960
        then 200 + (if r then 0 else 50) else (if r then 0 else 50)) := by
  have hw := tdiv60_window (zdt.instant - n.instant)
  simp [Task.date_value, hinfo, hn, hw]
  split <;> rfl

/-- Counterexample for C2 as stated: a non-recurring task due
2000-01-01T00:00:00 (UTC) against a clock 930 seconds — more than 15
minutes — earlier still scores 200 + 50 = 250, because `num_minutes`
truncates 930 s to 15 whole minutes. -/
theorem C2_counterexample :
    taskC2x.datetimeinfo cfgC2x =
      some (Except.ok (DateTimeInfo.DateTime ⟨946684800, Tz.UTC⟩ false)) ∧
    946684800 - cfgC2x.nowUtcSeconds = 930 ∧ 15 * 60 < 930 ∧
    taskC2x.date_value cfgC2x = some 250 := by
  decide

/-- Witness for C2 (amended): the same task with the clock exactly at its due
instant scores 200 + 50 = 250. -/
theorem C2_witness :
    taskC2x.datetimeinfo cfgC2w =
      some (Except.ok (DateTimeInfo.DateTime ⟨946684800, Tz.UTC⟩ false)) ∧
    now cfgC2w = some ⟨946684800, Tz.UTC⟩ ∧
    taskC2x.date_value cfgC2w = some 250 := by
  refine ⟨by decide, by decide, ?_⟩
  have h := C2_datetime_window taskC2x cfgC2w ⟨946684800, Tz.UTC⟩ false
    ⟨946684800, Tz.UTC⟩ (by decide) (by decide)
  norm_num at h
  exact h

/-- C3: `value` is `date_value` plus the fixed priority lookup None→2, Low→1,
Medium→3, High→4; and in Scenario A (Los Angeles context, current date
2024-01-01, date-only due 2020-12-20, non-recurring, Medium) the task is
overdue, `date_value` is 200, `priority_value` is 3 and `value` is 203. -/
theorem C3_value_composition :
    (∀ (t : Task) (c : Config),
      t.value c = (t.date_value c).map (fun dv => dv + t.priority_value)) ∧
    (∀ t : Task, t.priority = Priority.None → t.priority_value = 2) ∧
    (∀ t : Task, t.priority = Priority.Low → t.priority_value = 1) ∧
    (∀ t : Task, t.priority = Priority.Medium → t.priority_value = 3) ∧
    (∀ t : Task, t.priority = Priority.High → t.priority_value = 4) ∧
    (today_date cfgA = some (daysFromCivil 2024 1 1) ∧
      taskA.is_overdue cfgA = some true ∧
      taskA.date_value cfgA = some 200 ∧
      taskA.priority_value = 3 ∧
      taskA.value cfgA = some 203) := by
  refine ⟨?_, ?_, ?_, ?_, ?_, by decide⟩
  · intro t c
    rcases h : t.date_value c with _ | dv <;> simp [Task.value, h]
  · intro t h
    simp [Task.priority_value, h]
  · intro t h
    simp [Task.priority_value, h]
  · intro t h
    simp [Task.priority_value, h]
  · intro t h
    simp [Task.priority_value, h]

/-- Witness for C3: the priority lookup applied at one concrete task of each
priority. -/
theorem C3_witness :
    (mkTask "w3" Priority.None none).priority_value = 2 ∧
    (mkTask "w3" Priority.Low none).priority_value = 1 ∧
    (mkTask "w3" Priority.Medium none).priority_value = 3 ∧
    (mkTask "w3" Priority.High none).priority_value = 4 :=
  ⟨C3_value_composition.2.1 _ rfl, C3_value_composition.2.2.1 _ rfl,
    C3_value_composition.2.2.2.1 _ rfl, C3_value_composition.2.2.2.2.1 _ rfl⟩

/-- C4: evaluation of the code at the failing input.  An explicit timezone
name that resolves to no known zone — on the due spec or on the context —
makes resolution hit `timezone_from_str`'s `.unwrap()` and panic (modelled
`none`): the process aborts, and no `TimezoneError`-style typed failure is
returned to the caller (and no silent UTC default happens either). -/
theorem C4_bad_timezone_panics :
    parseTz "Not A Real Zone" = none ∧
    taskC4.datetimeinfo cfgEpoch = none ∧
    taskC4.date_value cfgEpoch = none ∧
    taskC4.value cfgEpoch = none ∧
    parseTz "Also Not A Zone" = none ∧
    taskC4b.datetimeinfo cfgC4b = none ∧
    taskC4b.date_value cfgC4b = none := by
  decide

/-- C5 (amended): a due string of unrecognized length (not 10, 19 or 20,
with a resolvable timezone) fails with the recoverable `ParseError` carrying
the offending string, `date_value` falls back to 50, and the task stays in
any value-ranked listing; a 10-character string with invalid content
likewise yields a recoverable `ParseError` — though without the offending
string — and the same 50 fallback and retention.  (A 19- or 20-character
string with invalid content instead panics, aborting any value-ranked
listing of two or more tasks — see the counterexample.) -/
theorem C5_unknown_length_fallback :
    (∀ (t : Task) (c : Config) (di : DateInfo) (tz : Tz),
      t.due = some di → t.resolvedTz c = some tz →
      di.date.length ≠ 10 → di.date.length ≠ 19 → di.date.length ≠ 20 →
      t.datetimeinfo c =
        some (Except.error ("cannot parse DateTime: " ++ di.date)) ∧
      t.date_value c = some 50 ∧
      (∀ ts out, sort_by_value ts c = some out → (t ∈ ts ↔ t ∈ out))) ∧
    (∀ (t : Task) (c : Config) (di : DateInfo) (tz : Tz),
      t.due = some di → t.resolvedTz c = some tz →
      di.date.length = 10 → parseNaiveDate di.date = none →
      t.datetimeinfo c = some (Except.error "could not parse Date") ∧
      t.date_value c = some 50 ∧
      (∀ ts out, sort_by_value ts c = some out → (t ∈ ts ↔ t ∈ out))) := by
  constructor
  · intro t c di tz hdue htz h10 h19 h20
    have herr := datetimeinfo_unknown_length t c di tz hdue htz h10 h19 h20
    exact ⟨herr, date_value_of_error t c _ herr, fun ts out h =>
      ((sort_by_value_perm ts c out h).mem_iff).symm⟩
  · intro t c di tz hdue htz hlen hparse
    have herr : t.datetimeinfo c = some (Except.error "could not parse Date") := by
      unfold Task.datetimeinfo
      rw [htz, hdue]
      simp only [Option.some_bind, if_pos hlen]
      unfold date_from_str
      rw [hlen, hparse]
      rfl
    exact ⟨herr, date_value_of_error t c _ herr, fun ts out h =>
      ((sort_by_value_perm ts c out h).mem_iff).symm⟩

/-- Counterexample for C5 as stated: the 19-character due string
`9999-99-99T99:99:99` has a recognized length but unparseable content, so
resolution hits `.expect` and panics (`none`) instead of producing a
`ParseError`, and `date_value` does not fall back to 50.  A value-ranked
listing of two tasks containing it evaluates the panicking key and dies;
only a single-task listing survives, no key being evaluated there. -/
theorem C5_counterexample :
    taskC5x.due = some ⟨"9999-99-99T99:99:99", false, none⟩ ∧
    String.length "9999-99-99T99:99:99" = 19 ∧
    taskC5x.datetimeinfo cfgEpoch = none ∧
    taskC5x.date_value cfgEpoch ≠ some 50 ∧
    sort_by_value [taskC5x, taskC5o] cfgEpoch = none ∧
    sort_by_value [taskC5x] cfgEpoch = some [taskC5x] := by
  decide

/-- Witness for C5 (amended): the 9-character due string `2invalid!` gives
the carried `ParseError`, and the 10-character invalid date `2021-13-40`
gives the uncarried one; both fall back to 50 and survive value-ranked
listings. -/
theorem C5_witness :
    (taskC5w.datetimeinfo cfgEpoch =
      some (Except.error ("cannot parse DateTime: " ++ "2invalid!")) ∧
    taskC5w.date_value cfgEpoch = some 50 ∧
    (∀ ts out, sort_by_value ts cfgEpoch = some out →
      (taskC5w ∈ ts ↔ taskC5w ∈ out))) ∧
    (taskC5t.datetimeinfo cfgEpoch = some (Except.error "could not parse Date") ∧
    taskC5t.date_value cfgEpoch = some 50 ∧
    (∀ ts out, sort_by_value ts cfgEpoch = some out →
      (taskC5t ∈ ts ↔ taskC5t ∈ out))) :=
  ⟨C5_unknown_length_fallback.1 taskC5w cfgEpoch ⟨"2invalid!", false, none⟩
      Tz.UTC rfl (by decide) (by decide) (by decide) (by decide),
    C5_unknown_length_fallback.2 taskC5t cfgEpoch ⟨"2021-13-40", false, none⟩
      Tz.UTC rfl (by decide) (by decide) (by decide)⟩

/-- C6: a 10-character due string never resolves to the `DateTime` case; a
20-character zone-suffixed date-time string always resolves to a `DateTime`
anchored to UTC with the parsed naive seconds as its instant, regardless of
the resolved (possibly non-UTC) timezone; and any length other than 10, 19
or 20 is unparseable. -/
theorem C6_length_discipline :
    (∀ (t : Task) (c : Config) (di : DateInfo) (zdt : ZonedDateTime) (r : Bool),
      t.due = some di → di.date.length = 10 →
      t.datetimeinfo c ≠ some (Except.ok (DateTimeInfo.DateTime zdt r))) ∧
    (∀ (t : Task) (c : Config) (di : DateInfo) (tz : Tz) (n : Int),
      t.due = some di → t.resolvedTz c = some tz → di.date.length = 20 →
      parseNaiveDateTimeZ di.date = some n →
      t.datetimeinfo c =
        some (Except.ok (DateTimeInfo.DateTime ⟨n, Tz.UTC⟩ di.is_recurring))) ∧
    (∀ (t : Task) (c : Config) (di : DateInfo) (tz : Tz),
      t.due = some di → t.resolvedTz c = some tz →
      di.date.length ≠ 10 → di.date.length ≠ 19 → di.date.length ≠ 20 →
      t.datetimeinfo c =
        some (Except.error ("cannot parse DateTime: " ++ di.date))) := by
  refine ⟨?_, ?_, ?_⟩
  · intro t c di zdt r hdue hlen hcontra
    rcases htz : t.resolvedTz c with _ | tz
    · simp [Task.datetimeinfo, htz] at hcontra
    · rcases hdf : date_from_str di.date tz with _ | res
      · simp [Task.datetimeinfo, htz, hdue, hlen, hdf] at hcontra
      · rcases res with e | d <;>
          simp [Task.datetimeinfo, htz, hdue, hlen, hdf] at hcontra
  · intro t c di tz n hdue htz hlen hparse
    have hdt : datetime_from_str di.date tz = some (Except.ok ⟨n, Tz.UTC⟩) := by
      unfold datetime_from_str
      rw [hlen, hparse]
      rfl
    have hne : ¬ di.date.length = 10 := by omega
    simp [Task.datetimeinfo, htz, hdue, hne, hdt]
  · intro t c di tz hdue htz h10 h19 h20
    exact datetimeinfo_unknown_length t c di tz hdue htz h10 h19 h20

/-- Witness for C6: the 10-character string `2021-08-13` does not yield a
`DateTime`; the 20-character string `2021-02-27T19:41:56Z`, resolved with an
explicit `America/Los_Angeles` timezone, yields a UTC-anchored `DateTime` at
epoch second 1614454916; and the 3-character string `abc` is unparseable. -/
theorem C6_witness :
    taskC6a.datetimeinfo cfgC7 ≠
      some (Except.ok (DateTimeInfo.DateTime ⟨0, Tz.UTC⟩ false)) ∧
    taskC6z.datetimeinfo cfgC7 =
      some (Except.ok (DateTimeInfo.DateTime ⟨1614454916, Tz.UTC⟩ false)) ∧
    (mkTask "w6" Priority.None (some ⟨"abc", false, none⟩)).datetimeinfo cfgEpoch =
      some (Except.error ("cannot parse DateTime: " ++ "abc")) :=
  ⟨C6_length_discipline.1 taskC6a cfgC7 ⟨"2021-08-13", false, none⟩ ⟨0, Tz.UTC⟩
      false rfl (by decide),
    C6_length_discipline.2.1 taskC6z cfgC7 ⟨"2021-02-27T19:41:56Z", false,
      some "America/Los_Angeles"⟩ Tz.AmericaLosAngeles 1614454916 rfl
      (by decide) (by decide) (by decide),
    C6_length_discipline.2.2 (mkTask "w6" Priority.None (some ⟨"abc", false, none⟩))
      cfgEpoch ⟨"abc", false, none⟩ Tz.UTC rfl (by decide) (by decide)
      (by decide) (by decide)⟩

/-- C7: the timezone used to resolve a due string follows the strict
precedence due-spec explicit zone → context default zone → UTC. -/
theorem C7_timezone_precedence (t : Task) (c : Config) :
    (∀ di s, t.due = some di → di.timezone = some s →
      t.resolvedTz c = timezone_from_str (some s)) ∧
    (∀ s, (t.due = none ∨ ∃ di, t.due = some di ∧ di.timezone = none) →
      c.timezone = some s → t.resolvedTz c = timezone_from_str (some s)) ∧
    ((t.due = none ∨ ∃ di, t.due = some di ∧ di.timezone = none) →
      c.timezone = none → t.resolvedTz c = some Tz.UTC) := by
  refine ⟨?_, ?_, ?_⟩
  · intro di s hdue htz
    simp [Task.resolvedTz, hdue, htz]
  · intro s hd hc
    rcases hd with hd | ⟨di, hdue, htz⟩
    · rw [resolvedTz_due_none t c hd, hc]
    · simp [Task.resolvedTz, hdue, htz, hc]
  · intro hd hc
    rcases hd with hd | ⟨di, hdue, htz⟩
    · rw [resolvedTz_due_none t c hd, hc]
      rfl
    · simp [Task.resolvedTz, hdue, htz, hc]

/-- Witness for C7: a due-spec zone wins over a different context zone; the
context zone applies when the due spec has none; UTC applies when neither is
set. -/
theorem C7_witness :
    taskC7.resolvedTz cfgC7 = timezone_from_str (some "UTC") ∧
    taskC5o.resolvedTz cfgC7 = timezone_from_str (some "America/Los_Angeles") ∧
    (mkTask "w7" Priority.None none).resolvedTz cfgEpoch = some Tz.UTC :=
  ⟨(C7_timezone_precedence taskC7 cfgC7).1 ⟨"2021-08-13", false, some "UTC"⟩
      "UTC" rfl rfl,
    (C7_timezone_precedence taskC5o cfgC7).2.1 "America/Los_Angeles"
      (Or.inr ⟨⟨"2000-01-01", false, none⟩, rfl, rfl⟩) rfl,
    (C7_timezone_precedence (mkTask "w7" Priority.None none) cfgEpoch).2.2
      (Or.inl rfl) rfl⟩

/-- C8: a successful `sort_by_value` returns the same tasks in descending
order of computed value, and the sort is stable — each value class of the
output is exactly the corresponding value class of the input, in input
order. -/
theorem C8_stable_descending (tasks : List Task) (config : Config)
    (out : List Task) (h : sort_by_value tasks config = some out) :
    out.Perm tasks ∧
    out.Pairwise (fun a b => ∀ va vb, a.value config = some va →
      b.value config = some vb → vb ≤ va) ∧
    (∀ v : Nat, out.filter (fun t => t.value config == some v) =
      tasks.filter (fun t => t.value config == some v)) := by
  obtain ⟨hout, hguard⟩ := sort_by_value_some tasks config out h
  have hperm : out.Perm tasks := by
    rw [hout]
    exact List.perm_insertionSort _ tasks
  refine ⟨hperm, ?_, ?_⟩
  · haveI : IsTotal Task (fun a b => valueKey config b ≤ valueKey config a) :=
      ⟨fun a b => le_total _ _⟩
    haveI : IsTrans Task (fun a b => valueKey config b ≤ valueKey config a) :=
      ⟨fun a b c hab hbc => le_trans hbc hab⟩
    have hs : out.Pairwise (fun a b => valueKey config b ≤ valueKey config a) := by
      rw [hout]
      exact List.sorted_insertionSort _ tasks
    refine hs.imp ?_
    intro a b hab va vb hva hvb
    have hab' : valueKey config b ≤ valueKey config a := hab
    have ha' : valueKey config a = va := by simp [valueKey, hva]
    have hb' : valueKey config b = vb := by simp [valueKey, hvb]
    rw [ha', hb'] at hab'
    exact hab'
  · intro v
    rcases hguard with hlen | hall
    · rcases tasks with _ | ⟨x, _ | ⟨y, rest⟩⟩
      · rw [hout]
        rfl
      · rw [hout]
        rfl
      · simp only [List.length_cons] at hlen
        omega
    have hkey := insertionSort_filter_key (valueKey config)
      (fun a b => valueKey config b ≤ valueKey config a)
      (fun a b hab => by simp only [hab]; exact le_refl _) tasks v
    rw [hout]
    have e1 : tasks.filter (fun t => valueKey config t == v) =
        tasks.filter (fun t => t.value config == some v) := by
      refine List.filter_congr ?_
      intro x hx
      have hx2 := hall x hx
      rcases hv : x.value config with _ | w
      · rw [hv] at hx2
        simp at hx2
      · simp [valueKey, hv]
    have e2 : (tasks.insertionSort
          (fun a b => valueKey config b ≤ valueKey config a)).filter
          (fun t => valueKey config t == v) =
        (tasks.insertionSort
          (fun a b => valueKey config b ≤ valueKey config a)).filter
          (fun t => t.value config == some v) := by
      refine List.filter_congr ?_
      intro x hx
      have hx' : x ∈ tasks :=
        ((List.perm_insertionSort
          (fun a b => valueKey config b ≤ valueKey config a) tasks).mem_iff).mp hx
      have hx2 := hall x hx'
      rcases hv : x.value config with _ | w
      · rw [hv] at hx2
        simp at hx2
      · simp [valueKey, hv]
    rw [← e2, hkey, e1]

/-- Witness for C8: sorting three no-due tasks with values 82, 83, 82
yields the value-83 task first and keeps the two value-82 tasks in input
order. -/
theorem C8_witness :
    sort_by_value ts8 cfgEpoch = some [t8b, t8a, t8c] ∧
    (([t8b, t8a, t8c] : List Task).Perm ts8 ∧
      ([t8b, t8a, t8c] : List Task).Pairwise (fun a b => ∀ va vb,
        a.value cfgEpoch = some va → b.value cfgEpoch = some vb → vb ≤ va) ∧
      (∀ v : Nat, ([t8b, t8a, t8c] : List Task).filter
          (fun t => t.value cfgEpoch == some v) =
        ts8.filter (fun t => t.value cfgEpoch == some v))) :=
  ⟨by decide, C8_stable_descending ts8 cfgEpoch [t8b, t8a, t8c] (by decide)⟩

/-- C9: a successful `sort_by_datetime` returns the same tasks with every
task lacking a concrete instant placed before every task that has one, the
instant-less tasks kept in input order, and the instant-bearing tasks in
chronologically ascending order. -/
theorem C9_datetime_order (tasks : List Task) (config : Config)
    (out : List Task) (h : sort_by_datetime tasks config = some out) :
    out.Perm tasks ∧
    out.Pairwise (fun a b => b.datetime config = some none →
      a.datetime config = some none) ∧
    out.Pairwise (fun a b => ∀ za zb, a.datetime config = some (some za) →
      b.datetime config = some (some zb) → za.instant ≤ zb.instant) ∧
    out.filter (fun t => t.datetime config == some none) =
      tasks.filter (fun t => t.datetime config == some none) := by
  obtain ⟨hout, hguard⟩ := sort_by_datetime_some tasks config out h
  have hperm : out.Perm tasks := by
    rw [hout]
    exact List.perm_insertionSort _ tasks
  haveI : IsTotal Task (fun a b => datetimeKey config a ≤ datetimeKey config b) :=
    ⟨fun a b => le_total _ _⟩
  haveI : IsTrans Task (fun a b => datetimeKey config a ≤ datetimeKey config b) :=
    ⟨fun a b c hab hbc => le_trans hab hbc⟩
  have hs : out.Pairwise (fun a b => datetimeKey config a ≤ datetimeKey config b) := by
    rw [hout]
    exact List.sorted_insertionSort _ tasks
  refine ⟨hperm, ?_, ?_, ?_⟩
  · rcases hguard with hlen | hall
    · rcases tasks with _ | ⟨x, _ | ⟨y, rest⟩⟩
      · rw [hout]
        exact List.Pairwise.nil
      · rw [hout]
        exact List.Pairwise.cons (by simp) List.Pairwise.nil
      · simp only [List.length_cons] at hlen
        omega
    refine hs.imp_of_mem ?_
    intro a b ha hb hab hbnone
    have hkb : datetimeKey config b = ⊥ := by
      unfold datetimeKey
      rw [hbnone]
      rfl
    rw [hkb] at hab
    have hka : datetimeKey config a = ⊥ := WithBot.le_bot_iff.mp hab
    have hamem : a ∈ tasks := hperm.mem_iff.mp ha
    have hsome := hall a hamem
    rcases hda : a.datetime config with _ | oa
    · rw [hda] at hsome
      simp at hsome
    · rcases oa with _ | za
      · rfl
      · exfalso
        unfold datetimeKey at hka
        rw [hda] at hka
        simp at hka
  · refine hs.imp ?_
    intro a b hab za zb hda hdb
    have hka : datetimeKey config a = (za.instant : WithBot Int) := by
      unfold datetimeKey
      rw [hda]
      rfl
    have hkb : datetimeKey config b = (zb.instant : WithBot Int) := by
      unfold datetimeKey
      rw [hdb]
      rfl
    rw [hka, hkb] at hab
    exact_mod_cast hab
  · rcases hguard with hlen | hall
    · rcases tasks with _ | ⟨x, _ | ⟨y, rest⟩⟩
      · rw [hout]
        rfl
      · rw [hout]
        rfl
      · simp only [List.length_cons] at hlen
        omega
    have hkey := insertionSort_filter_key (datetimeKey config)
      (fun a b => datetimeKey config a ≤ datetimeKey config b)
      (fun a b hab => by simp only [hab]; exact le_refl _) tasks
      (⊥ : WithBot Int)
    rw [hout]
    have agree : ∀ x ∈ tasks, (datetimeKey config x == (⊥ : WithBot Int)) =
        (x.datetime config == some none) := by
      intro x hx
      have hx2 := hall x hx
      rcases hv : x.datetime config with _ | o
      · rw [hv] at hx2
        simp at hx2
      · rcases o with _ | z
        · unfold datetimeKey
          rw [hv]
          rfl
        · unfold datetimeKey
          rw [hv]
          rfl
    have e1 : tasks.filter (fun t => datetimeKey config t == (⊥ : WithBot Int)) =
        tasks.filter (fun t => t.datetime config == some none) :=
      List.filter_congr agree
    have e2 : (tasks.insertionSort
          (fun a b => datetimeKey config a ≤ datetimeKey config b)).filter
          (fun t => datetimeKey config t == (⊥ : WithBot Int)) =
        (tasks.insertionSort
          (fun a b => datetimeKey config a ≤ datetimeKey config b)).filter
          (fun t => t.datetime config == some none) := by
      refine List.filter_congr ?_
      intro x hx
      exact agree x (((List.perm_insertionSort _ tasks).mem_iff).mp hx)
    rw [← e2, hkey, e1]

/-- Witness for C9: sorting a future-timed, past-timed, no-due and date-only
task yields the two instant-less tasks first in input order, then the two
timed tasks chronologically. -/
theorem C9_witness :
    sort_by_datetime ts9 cfgEpoch = some [t9n, t9d, t9p, t9f] ∧
    (([t9n, t9d, t9p, t9f] : List Task).Perm ts9 ∧
      ([t9n, t9d, t9p, t9f] : List Task).Pairwise (fun a b =>
        b.datetime cfgEpoch = some none → a.datetime cfgEpoch = some none) ∧
      ([t9n, t9d, t9p, t9f] : List Task).Pairwise (fun a b => ∀ za zb,
        a.datetime cfgEpoch = some (some za) →
        b.datetime cfgEpoch = some (some zb) → za.instant ≤ zb.instant) ∧
      ([t9n, t9d, t9p, t9f] : List Task).filter
          (fun t => t.datetime cfgEpoch == some none) =
        ts9.filter (fun t => t.datetime cfgEpoch == some none)) :=
  ⟨by decide, C9_datetime_order ts9 cfgEpoch [t9n, t9d, t9p, t9f] (by decide)⟩

/-- C10: a task whose due-string resolution fails recoverably has `is_today`,
`is_overdue` and `has_time` all false, is excluded from the overdue,
unscheduled, not-in-future and today-and-timed subsets, and is still retained
with the neutral `date_value` 50 by the value-ranked sort. -/
theorem C10_error_task_filtered (t : Task) (c : Config) (e : String)
    (herr : t.datetimeinfo c = some (Except.error e)) :
    t.is_today c = some false ∧
    t.is_overdue c = some false ∧
    t.has_time c = some false ∧
    t.filter c TaskFilter.Overdue = some false ∧
    t.filter c TaskFilter.Unscheduled = some false ∧
    (∀ ts out, filter_not_in_future ts c = some out → t ∉ out) ∧
    (∀ ts out, filter_today_and_has_time ts c = some out → t ∉ out) ∧
    t.date_value c = some 50 ∧
    (∀ ts out, sort_by_value ts c = some out → (t ∈ ts ↔ t ∈ out)) := by
  have htoday : t.is_today c = some false := by simp [Task.is_today, herr]
  have hover : t.is_overdue c = some false := by simp [Task.is_overdue, herr]
  have htime : t.has_time c = some false := by simp [Task.has_time, herr]
  have hds := datetimeinfo_error_due_isSome t c e herr
  have hnodate : t.has_no_date = false := by
    rcases hdue : t.due with _ | di
    · rw [hdue] at hds
      simp at hds
    · simp [Task.has_no_date, hdue]
  refine ⟨htoday, hover, htime, ?_, ?_, ?_, ?_,
    date_value_of_error t c e herr, ?_⟩
  · simp [Task.filter, hover]
  · simp [Task.filter, hnodate, hover]
  · intro ts out h hm
    have hp := mem_filter_not_in_future c t ts out h hm
    have hfalse : notInFuturePred t c = some false := by
      simp [notInFuturePred, htoday, hnodate, hover]
    rw [hfalse] at hp
    simp at hp
  · intro ts out h hm
    have hp := mem_filter_today_and_has_time c t ts out h hm
    have hfalse : todayAndHasTimePred t c = some false := by
      simp [todayAndHasTimePred, htoday]
    rw [hfalse] at hp
    simp at hp
  · intro ts out h
    exact ((sort_by_value_perm ts c out h).mem_iff).symm

/-- Witness for C10: the task due `abc` is excluded from every derived
subset but kept, at value 50 + 1, by the value-ranked sort. -/
theorem C10_witness :
    taskC10.datetimeinfo cfgEpoch =
      some (Except.error ("cannot parse DateTime: " ++ "abc")) ∧
    (taskC10.is_today cfgEpoch = some false ∧
      taskC10.is_overdue cfgEpoch = some false ∧
      taskC10.has_time cfgEpoch = some false ∧
      taskC10.filter cfgEpoch TaskFilter.Overdue = some false ∧
      taskC10.filter cfgEpoch TaskFilter.Unscheduled = some false ∧
      (∀ ts out, filter_not_in_future ts cfgEpoch = some out → taskC10 ∉ out) ∧
      (∀ ts out, filter_today_and_has_time ts cfgEpoch = some out →
        taskC10 ∉ out) ∧
      taskC10.date_value cfgEpoch = some 50 ∧
      (∀ ts out, sort_by_value ts cfgEpoch = some out →
        (taskC10 ∈ ts ↔ taskC10 ∈ out))) :=
  ⟨by decide, C10_error_task_filtered taskC10 cfgEpoch
    ("cannot parse DateTime: " ++ "abc") (by decide)⟩

end Tod
